import Mathlib

/-
Verification of the GitLab project-discovery, caching, and webhook-provisioning
pipeline of `buildbot_nix/gitlab_project.py`.

The Python source is shallowly embedded: pure logic becomes Lean functions;
network I/O is threaded through explicit environment parameters (responses of
the remote endpoints); exceptions become `Except`; the cache file on disk
becomes an explicit `CacheFile` value passed and returned.  Helpers imported
from `buildbot_nix.common` (not part of the sources under verification) are
modelled from the specification and marked as such in their doc comments.
-/

/-- Embeds the pydantic model `NamespaceData` (gitlab_project.py lines 35-37). -/
structure NamespaceData where
  path : String
  kind : String
deriving Repr, DecidableEq

/-- Embeds the pydantic model `RepoData` (gitlab_project.py lines 40-49). -/
structure RepoData where
  id : Nat
  name_with_namespace : String
  path : String
  path_with_namespace : String
  ssh_url_to_repo : String
  web_url : String
  «namespace» : NamespaceData
  default_branch : String
  topics : List String
deriving Repr, DecidableEq

/-- The fields of `GitlabConfig` (buildbot_nix.models) that the embedded code
reads.  The cache file itself is modelled separately as a `CacheFile` value. -/
structure GitlabConfig where
  instance_url : String
  token : String
  webhook_secret : String
  topic : Option String
deriving Repr, DecidableEq

/-- Embeds `GitlabProject` (gitlab_project.py lines 52-58): a config plus the
cached `RepoData` snapshot. -/
structure GitlabProject where
  config : GitlabConfig
  data : RepoData
deriving Repr, DecidableEq

/-- Embeds `GitlabProject.belongs_to_org` (gitlab_project.py lines 107-109):
`self.data.namespace.kind == "group"`. -/
def GitlabProject.belongs_to_org (p : GitlabProject) : Bool :=
  p.data.«namespace».kind == "group"

/-- A transport or HTTP failure of one request (spec taxonomy `NetworkError`). -/
structure NetworkError where
  status : Nat
deriving Repr, DecidableEq

/-- The state of the project cache file on disk: absent, present but
undecodable, or a decoded list of records. -/
inductive CacheFile where
  | absent
  | corrupt
  | valid (repos : List RepoData)
deriving Repr, DecidableEq

/-- Modelled from the spec: `filter_repos_by_topic` from `buildbot_nix.common`
(not under the verified sources).  Per spec 4.2: with no selector the input is
returned unchanged; with a selector it keeps exactly the records whose tag list
contains the selector, preserving order. -/
def filter_repos_by_topic (topic : Option String) (repos : List RepoData)
    (topicsOf : RepoData → List String) : List RepoData :=
  match topic with
  | none => repos
  | some t => repos.filter (fun repo => decide (t ∈ topicsOf repo))

/-- Code-point-wise lexicographic comparison of character lists, the order
Python's `sorted` uses on the `str` sort keys. -/
def lexLe : List Char → List Char → Bool
  | [], _ => true
  | _ :: _, [] => false
  | a :: as, b :: bs =>
      if a.toNat < b.toNat then true
      else if b.toNat < a.toNat then false
      else lexLe as bs

/-- Python's `<=` on strings: lexicographic by code point. -/
def strLe (a b : String) : Bool :=
  lexLe a.data b.data

/-- The sort key comparison of `load_projects`:
`sorted(..., key=lambda repo: repo.path_with_namespace)`. -/
def repoLe (a b : RepoData) : Bool :=
  strLe a.path_with_namespace b.path_with_namespace

/-- The sort relation of `load_projects` as a decidable proposition. -/
abbrev repoPathLe (a b : RepoData) : Prop := repoLe a b = true

/-- Embeds the `sorted(..., key=lambda repo: repo.path_with_namespace)` call of
`load_projects` (gitlab_project.py lines 164-167); Python's `sorted` and
`List.insertionSort` are both stable sorts, so they agree on every input. -/
def sortedByPath (repos : List RepoData) : List RepoData :=
  List.insertionSort repoPathLe repos

/-- Boolean check that a record list is sorted by `path_with_namespace`
ascending (adjacent-pair chain). -/
def sortedByPathB : List RepoData → Bool
  | [] => true
  | [_] => true
  | a :: b :: rest => repoLe a b && sortedByPathB (b :: rest)

/-- Modelled from the spec: `model_validate_project_cache` from
`buildbot_nix.common` (not under the verified sources).  Per spec 4.3: decoding
a present but undecodable file fails with `CacheCorrupt`; reading a missing
file fails (callers guard with an existence check first). -/
def model_validate_project_cache : CacheFile → Except String (List RepoData)
  | CacheFile.absent => Except.error "CacheMissing"
  | CacheFile.corrupt => Except.error "CacheCorrupt"
  | CacheFile.valid repos => Except.ok repos

/-- Embeds `Path.exists` on the project cache file. -/
def cache_exists : CacheFile → Bool
  | CacheFile.absent => false
  | CacheFile.corrupt => true
  | CacheFile.valid _ => true

/-- Embeds `GitlabBackend.are_projects_cached` (gitlab_project.py lines
176-177): `self.config.project_cache_file.exists()`. -/
def GitlabBackend_are_projects_cached (cache : CacheFile) : Bool :=
  cache_exists cache

/-- Embeds `GitlabBackend.load_projects` (gitlab_project.py lines 158-174):
return `[]` when the cache file does not exist; otherwise decode it, sort by
`path_with_namespace`, filter by the configured topic, and wrap each record in
a `GitlabProject`. -/
def GitlabBackend_load_projects (config : GitlabConfig) (cache : CacheFile) :
    Except String (List GitlabProject) :=
  if cache_exists cache then
    match model_validate_project_cache cache with
    | Except.error e => Except.error e
    | Except.ok repos =>
        Except.ok
          ((filter_repos_by_topic config.topic (sortedByPath repos)
              (fun repo => repo.topics)).map
            (fun repo => { config := config, data := repo }))
  else
    Except.ok []

/-- Equality of `Except` results is decidable when both components are. -/
instance {ε α : Type} [DecidableEq ε] [DecidableEq α] :
    DecidableEq (Except ε α) := fun a b =>
  match a, b with
  | Except.error e1, Except.error e2 =>
      if h : e1 = e2 then isTrue (congrArg Except.error h)
      else isFalse (fun hc => h (Except.error.inj hc))
  | Except.error _, Except.ok _ => isFalse (fun hc => Except.noConfusion hc)
  | Except.ok _, Except.error _ => isFalse (fun hc => Except.noConfusion hc)
  | Except.ok a1, Except.ok a2 =>
      if h : a1 = a2 then isTrue (congrArg Except.ok h)
      else isFalse (fun hc => h (Except.ok.inj hc))

/-- An authenticated GET request: the URL issued and the bearer token. -/
structure ApiRequest where
  url : String
  token : String
deriving Repr, DecidableEq

/-- Modelled from the spec: `paginated_github_request` from
`buildbot_nix.common` (not under the verified sources).  Per spec 4.1: pages
are fetched sequentially and concatenated; any page failure propagates
immediately and aborts the whole request.  The remote's successive page
responses are the explicit argument. -/
def paginated_github_request {α : Type} :
    List (Except NetworkError (List α)) → Except NetworkError (List α)
  | [] => Except.ok []
  | page :: rest =>
      match page with
      | Except.error e => Except.error e
      | Except.ok xs =>
          match paginated_github_request rest with
          | Except.error e => Except.error e
          | Except.ok ys => Except.ok (xs ++ ys)

/-- Embeds the f-string of `refresh_projects` (gitlab_project.py line 262). -/
def projects_api_url (instance_url : String) : String :=
  instance_url ++
    "/api/v4/projects?min_access_level=40&pagination=keyset&per_page=100&order_by=id&sort=asc"

/-- The request `refresh_projects` issues: the projects URL under the
configured instance, authenticated with the configured token. -/
def refresh_projects_request (config : GitlabConfig) : ApiRequest :=
  { url := projects_api_url config.instance_url, token := config.token }

/-- Embeds `refresh_projects` (gitlab_project.py lines 257-265): issue the
paginated projects request and validate every returned record.  The network is
the explicit parameter `net`, mapping a request to the page responses the
remote serves for it. -/
def refresh_projects (config : GitlabConfig)
    (net : ApiRequest → List (Except NetworkError (List RepoData))) :
    Except NetworkError (List RepoData) :=
  paginated_github_request (net (refresh_projects_request config))

/-- Embeds `ReloadGitlabProjects.run_deferred` (gitlab_project.py lines
218-224): fetch, filter by topic, then persist.  A fetch failure propagates
before the write, leaving the cache untouched.  `atomic_write_file` and
`model_dump_project_cache` (buildbot_nix.common, not under the verified
sources) are modelled from spec 4.3 as an atomic replacement of the cache
contents by the exact record list handed to them. -/
def ReloadGitlabProjects_run_deferred (config : GitlabConfig)
    (net : ApiRequest → List (Except NetworkError (List RepoData)))
    (cache : CacheFile) : Except NetworkError Unit × CacheFile :=
  match refresh_projects config net with
  | Except.error e => (Except.error e, cache)
  | Except.ok fetched =>
      (Except.ok (),
        CacheFile.valid
          (filter_repos_by_topic config.topic fetched (fun repo => repo.topics)))

/-- Embeds `hook_url = instance_url + "change_hook/gitlab"` (gitlab_project.py
line 275); `instance_url` here is the buildbot platform base URL. -/
def hook_url (instance_url : String) : String :=
  instance_url ++ "change_hook/gitlab"

/-- The JSON body of the hook-creation POST (gitlab_project.py lines 292-310). -/
structure HookBody where
  name : String
  url : String
  enable_ssl_verification : Bool
  token : String
  confidential_issues_events : Bool
  confidential_note_events : Bool
  deployment_events : Bool
  feature_flag_events : Bool
  issues_events : Bool
  job_events : Bool
  merge_requests_events : Bool
  note_events : Bool
  pipeline_events : Bool
  releases_events : Bool
  wiki_page_events : Bool
  resource_access_token_events : Bool
deriving Repr, DecidableEq

/-- The exact body `create_project_hook` POSTs (gitlab_project.py lines
292-310). -/
def gitlab_hook_body (webhook_secret : String) (instance_url : String) :
    HookBody :=
  { name := "buildbot hook"
    url := hook_url instance_url
    enable_ssl_verification := true
    token := webhook_secret
    confidential_issues_events := false
    confidential_note_events := false
    deployment_events := false
    feature_flag_events := false
    issues_events := false
    job_events := false
    merge_requests_events := false
    note_events := false
    pipeline_events := false
    releases_events := false
    wiki_page_events := false
    resource_access_token_events := false }

/-- Embeds `create_project_hook` (gitlab_project.py lines 268-311).  Existing
hooks are represented by their `url` field, the only field the code reads.
`hookPages` is the remote's paginated response to the hook-listing GET;
`post` is the remote's response to the hook-creation POST, applied to the body
actually sent.  The result records the body POSTed, or `none` when an existing
hook already carries the callback URL. -/
def create_project_hook (webhook_secret : String) (instance_url : String)
    (hookPages : List (Except NetworkError (List String)))
    (post : HookBody → Except NetworkError Unit) :
    Except NetworkError (Option HookBody) :=
  match paginated_github_request hookPages with
  | Except.error e => Except.error e
  | Except.ok hookUrls =>
      if hook_url instance_url ∈ hookUrls then
        Except.ok none
      else
        match post (gitlab_hook_body webhook_secret instance_url) with
        | Except.error e => Except.error e
        | Except.ok _ => Except.ok (some (gitlab_hook_body webhook_secret instance_url))

/-- One provisioning pass over one project whose hook listing and creation
succeed: runs `create_project_hook` against the project's current hook URLs and
applies the remote effect of a successful POST (the service appends the newly
created hook).  Returns the project's hook URLs afterwards and the body POSTed,
if any. -/
def provision_project (webhook_secret : String) (instance_url : String)
    (existing : List String) : List String × Option HookBody :=
  match create_project_hook webhook_secret instance_url [Except.ok existing]
      (fun _ => Except.ok ()) with
  | Except.ok none => (existing, none)
  | Except.ok (some body) => (existing ++ [body.url], some body)
  | Except.error _ => (existing, none)

/-- Embeds the failure-free run of `CreateGitlabProjectHooks.run_deferred`
(gitlab_project.py lines 241-250) with the remote hook state made explicit:
`remote` maps a project id to its current hook URLs; each cached project is
provisioned in sequence and the remote state is updated in place.  Returns the
final remote state and, per project in order, the body POSTed, if any. -/
def provision_all (webhook_secret : String) (instance_url : String)
    (remote : Nat → List String) :
    List RepoData → (Nat → List String) × List (Nat × Option HookBody)
  | [] => (remote, [])
  | repo :: rest =>
      let step := provision_project webhook_secret instance_url (remote repo.id)
      let next := provision_all webhook_secret instance_url
        (fun i => if i = repo.id then step.1 else remote i) rest
      (next.1, (repo.id, step.2) :: next.2)

/-- The call the provisioning loop makes for one cached repo: list that repo's
hooks and create one if needed.  `listEnv` maps a project id to the remote's
paginated hook-listing response; `postEnv` maps a project id to the remote's
response to the hook-creation POST. -/
def project_hook_call (webhook_secret : String) (instance_url : String)
    (listEnv : Nat → List (Except NetworkError (List String)))
    (postEnv : Nat → Except NetworkError Unit) (repo : RepoData) :
    Except NetworkError (Option HookBody) :=
  create_project_hook webhook_secret instance_url (listEnv repo.id)
    (fun _ => postEnv repo.id)

/-- Embeds `CreateGitlabProjectHooks.run_deferred` (gitlab_project.py lines
241-250): iterate the cached repos in order, calling `create_project_hook` for
each; the first raised error aborts the loop.  Returns the ids of the repos
processed before the abort, and the aborting error, if any. -/
def CreateGitlabProjectHooks_run_deferred (webhook_secret : String)
    (instance_url : String)
    (listEnv : Nat → List (Except NetworkError (List String)))
    (postEnv : Nat → Except NetworkError Unit) :
    List RepoData → List Nat × Option NetworkError
  | [] => ([], none)
  | repo :: rest =>
      match project_hook_call webhook_secret instance_url listEnv postEnv repo with
      | Except.error e => ([], some e)
      | Except.ok _ =>
          let next :=
            CreateGitlabProjectHooks_run_deferred webhook_secret instance_url
              listEnv postEnv rest
          (repo.id :: next.1, next.2)

/-- Modelled from the spec: the build-step harness (`ThreadDeferredBuildStep`
in `buildbot_nix.common`, not under the verified sources) invokes `run_post`
only when `run_deferred` completed without raising; `run_post`
(gitlab_project.py lines 252-254) sends SIGHUP to the host process.  The
boolean records whether SIGHUP was sent. -/
def CreateGitlabProjectHooks_step (webhook_secret : String)
    (instance_url : String)
    (listEnv : Nat → List (Except NetworkError (List String)))
    (postEnv : Nat → Except NetworkError Unit) (repos : List RepoData) :
    (List Nat × Option NetworkError) × Bool :=
  let run :=
    CreateGitlabProjectHooks_run_deferred webhook_secret instance_url listEnv
      postEnv repos
  (run, run.2.isNone)

/-- An example upstream record, id 1, path `org/b`. -/
def repoOrgB : RepoData :=
  { id := 1
    name_with_namespace := "org / b"
    path := "b"
    path_with_namespace := "org/b"
    ssh_url_to_repo := "git@gitlab.example:org/b.git"
    web_url := "https://gitlab.example/org/b"
    «namespace» := { path := "org", kind := "group" }
    default_branch := "main"
    topics := ["ci"] }

/-- An example upstream record, id 2, path `org/a`. -/
def repoOrgA : RepoData :=
  { id := 2
    name_with_namespace := "org / a"
    path := "a"
    path_with_namespace := "org/a"
    ssh_url_to_repo := "git@gitlab.example:org/a.git"
    web_url := "https://gitlab.example/org/a"
    «namespace» := { path := "org", kind := "group" }
    default_branch := "main"
    topics := ["ci"] }

/-- An example configuration with no topic selector. -/
def exampleConfig : GitlabConfig :=
  { instance_url := "https://gitlab.example"
    token := "token123"
    webhook_secret := "hunter2"
    topic := none }

/-- An example network serving one page holding `repoOrgB` then `repoOrgA`
(the API's id-ascending order; path order is reversed on purpose). -/
def exampleNet : ApiRequest → List (Except NetworkError (List RepoData)) :=
  fun _ => [Except.ok [repoOrgB, repoOrgA]]

/-- An example hook-listing environment: project 1 has no hooks; every other
project's listing fails with HTTP 500. -/
def exampleListEnv : Nat → List (Except NetworkError (List String)) :=
  fun i => if i = 1 then [Except.ok []] else [Except.error { status := 500 }]

/-- An example hook-listing environment where every listing returns no hooks. -/
def exampleListEnvOk : Nat → List (Except NetworkError (List String)) :=
  fun _ => [Except.ok []]

/-- An example POST environment where every hook creation succeeds. -/
def examplePostEnv : Nat → Except NetworkError Unit :=
  fun _ => Except.ok ()

/-- An example network where every page request fails with HTTP 502. -/
def exampleNetFail : ApiRequest → List (Except NetworkError (List RepoData)) :=
  fun _ => [Except.error { status := 502 }]

/-- Code-point lexicographic comparison is total. -/
theorem lexLe_total : ∀ (a b : List Char), (lexLe a b || lexLe b a) = true
  | [], b => by simp [lexLe]
  | _ :: _, [] => by simp [lexLe]
  | a :: as, b :: bs => by
      simp only [lexLe]
      rcases Nat.lt_trichotomy a.toNat b.toNat with h | h | h
      · simp [h]
      · have h1 : ¬ a.toNat < b.toNat := by omega
        have h2 : ¬ b.toNat < a.toNat := by omega
        simpa [h1, h2] using lexLe_total as bs
      · have h1 : ¬ a.toNat < b.toNat := by omega
        simp [h, h1]

/-- Code-point lexicographic comparison is transitive. -/
theorem lexLe_trans :
    ∀ (a b c : List Char),
      lexLe a b = true → lexLe b c = true → lexLe a c = true
  | [], _, _, _, _ => by simp [lexLe]
  | _ :: _, [], _, hab, _ => by simp [lexLe] at hab
  | _ :: _, _ :: _, [], _, hbc => by simp [lexLe] at hbc
  | a :: as, b :: bs, c :: cs, hab, hbc => by
      simp only [lexLe] at hab hbc ⊢
      rcases Nat.lt_trichotomy a.toNat b.toNat with h1 | h1 | h1
      · rcases Nat.lt_trichotomy b.toNat c.toNat with h2 | h2 | h2
        · have : a.toNat < c.toNat := Nat.lt_trans h1 h2
          simp [this]
        · have : a.toNat < c.toNat := by omega
          simp [this]
        · have hn1 : ¬ b.toNat < c.toNat := by omega
          simp [hn1, h2] at hbc
      · rcases Nat.lt_trichotomy b.toNat c.toNat with h2 | h2 | h2
        · have : a.toNat < c.toNat := by omega
          simp [this]
        · have hac : a.toNat = c.toNat := by omega
          have hn1 : ¬ a.toNat < b.toNat := by omega
          have hn2 : ¬ b.toNat < a.toNat := by omega
          have hn3 : ¬ b.toNat < c.toNat := by omega
          have hn4 : ¬ c.toNat < b.toNat := by omega
          have hn5 : ¬ a.toNat < c.toNat := by omega
          have hn6 : ¬ c.toNat < a.toNat := by omega
          simp only [hn1, hn2, if_false, if_neg] at hab
          simp only [hn3, hn4, if_false, if_neg] at hbc
          simp only [hn5, hn6, if_false, if_neg]
          exact lexLe_trans as bs cs hab hbc
        · have hn1 : ¬ b.toNat < c.toNat := by omega
          simp [hn1, h2] at hbc
      · have hn1 : ¬ a.toNat < b.toNat := by omega
        simp [hn1, h1] at hab

/-- `strLe` is transitive. -/
theorem strLe_trans (a b c : String) :
    strLe a b = true → strLe b c = true → strLe a c = true :=
  lexLe_trans a.data b.data c.data

/-- `strLe` is total. -/
theorem strLe_total (a b : String) : (strLe a b || strLe b a) = true :=
  lexLe_total a.data b.data

/-- The `load_projects` sort relation is transitive. -/
theorem repoPathLe_trans (a b c : RepoData) :
    repoPathLe a b → repoPathLe b c → repoPathLe a c :=
  strLe_trans a.path_with_namespace b.path_with_namespace c.path_with_namespace

/-- The `load_projects` sort relation is total. -/
theorem repoPathLe_total (a b : RepoData) : repoPathLe a b ∨ repoPathLe b a := by
  have h := strLe_total a.path_with_namespace b.path_with_namespace
  rcases Bool.or_eq_true_iff.mp h with h' | h'
  · exact Or.inl h'
  · exact Or.inr h'

/-- `sortedByPath` output is pairwise ordered by `path_with_namespace`. -/
theorem sortedByPath_pairwise (repos : List RepoData) :
    List.Pairwise repoPathLe (sortedByPath repos) :=
  @List.sorted_insertionSort RepoData repoPathLe _ ⟨repoPathLe_total⟩
    ⟨repoPathLe_trans⟩ repos

/-- The topic filter returns a subsequence of its input, in input order. -/
theorem filter_repos_by_topic_sublist (topic : Option String)
    (repos : List RepoData) (topicsOf : RepoData → List String) :
    (filter_repos_by_topic topic repos topicsOf).Sublist repos := by
  cases topic with
  | none => exact List.Sublist.refl repos
  | some t => exact List.filter_sublist repos

/-- What one provisioning pass does to a project's hook URLs: nothing when the
callback URL is already present, else append it. -/
theorem provision_project_state (webhook_secret instance_url : String)
    (existing : List String) :
    (provision_project webhook_secret instance_url existing).1
      = if hook_url instance_url ∈ existing then existing
        else existing ++ [hook_url instance_url] := by
  by_cases h : hook_url instance_url ∈ existing <;>
    simp [provision_project, create_project_hook, paginated_github_request, h,
      gitlab_hook_body]

/-- What one provisioning pass POSTs: nothing when the callback URL is already
present, else the spec body. -/
theorem provision_project_act (webhook_secret instance_url : String)
    (existing : List String) :
    (provision_project webhook_secret instance_url existing).2
      = if hook_url instance_url ∈ existing then none
        else some (gitlab_hook_body webhook_secret instance_url) := by
  by_cases h : hook_url instance_url ∈ existing <;>
    simp [provision_project, create_project_hook, paginated_github_request, h]

/-- After one provisioning pass a project always carries the callback URL. -/
theorem provision_project_mem (webhook_secret instance_url : String)
    (existing : List String) :
    hook_url instance_url ∈
      (provision_project webhook_secret instance_url existing).1 := by
  rw [provision_project_state]
  by_cases h : hook_url instance_url ∈ existing <;> simp [h]

/-- A project that already carries the callback URL keeps carrying it through
any run of the provisioning loop. -/
theorem provision_all_state_mem (webhook_secret instance_url : String) :
    ∀ (repos : List RepoData) (remote : Nat → List String) (i : Nat),
      hook_url instance_url ∈ remote i →
      hook_url instance_url ∈
        (provision_all webhook_secret instance_url remote repos).1 i
  | [], _, _, h => h
  | repo :: rest, remote, i, h => by
      simp only [provision_all]
      apply provision_all_state_mem webhook_secret instance_url rest
      by_cases hi : i = repo.id
      · simpa [hi] using
          provision_project_mem webhook_secret instance_url (remote repo.id)
      · simpa [hi] using h

/-- After the provisioning loop, every processed project carries the callback
URL. -/
theorem provision_all_achieves (webhook_secret instance_url : String) :
    ∀ (repos : List RepoData) (remote : Nat → List String) (r : RepoData),
      r ∈ repos →
      hook_url instance_url ∈
        (provision_all webhook_secret instance_url remote repos).1 r.id
  | repo :: rest, remote, r, hr => by
      simp only [provision_all]
      rcases List.mem_cons.mp hr with h | h
      · subst h
        apply provision_all_state_mem
        simpa using
          provision_project_mem webhook_secret instance_url (remote r.id)
      · exact provision_all_achieves webhook_secret instance_url rest _ r h

/-- When every listed project already carries the callback URL, a provisioning
run POSTs nothing. -/
theorem provision_all_no_writes (webhook_secret instance_url : String) :
    ∀ (repos : List RepoData) (remote : Nat → List String),
      (∀ r ∈ repos, hook_url instance_url ∈ remote r.id) →
      ∀ pr ∈ (provision_all webhook_secret instance_url remote repos).2,
        pr.2 = none
  | [], _, _, _, hpr => by simp [provision_all] at hpr
  | repo :: rest, remote, hmem, pr, hpr => by
      simp only [provision_all, List.mem_cons] at hpr
      rcases hpr with h | h
      · subst h
        show (provision_project webhook_secret instance_url (remote repo.id)).2
          = none
        rw [provision_project_act,
          if_pos (hmem repo (List.mem_cons_self repo rest))]
      · refine provision_all_no_writes webhook_secret instance_url rest _ ?_ pr h
        intro r hr
        by_cases hi : r.id = repo.id
        · simpa [hi] using
            provision_project_mem webhook_secret instance_url (remote repo.id)
        · simpa [hi] using hmem r (List.mem_cons_of_mem repo hr)

/-- A successful hook-provisioning loop processes every cached repo in order. -/
theorem hooks_run_processed_of_success (webhook_secret instance_url : String)
    (listEnv : Nat → List (Except NetworkError (List String)))
    (postEnv : Nat → Except NetworkError Unit) :
    ∀ repos : List RepoData,
      (CreateGitlabProjectHooks_run_deferred webhook_secret instance_url
          listEnv postEnv repos).2 = none →
      (CreateGitlabProjectHooks_run_deferred webhook_secret instance_url
          listEnv postEnv repos).1 = repos.map (fun r => r.id)
  | [], _ => rfl
  | repo :: rest, h => by
      simp only [CreateGitlabProjectHooks_run_deferred] at h ⊢
      cases hc : project_hook_call webhook_secret instance_url listEnv postEnv repo with
      | error e => rw [hc] at h; simp at h
      | ok act =>
          rw [hc] at h
          simp only at h ⊢
          rw [List.map_cons]
          have := hooks_run_processed_of_success webhook_secret instance_url
            listEnv postEnv rest h
          simp [this]

/-- Claim C1: for every project, a provisioning pass POSTs a new webhook if and
only if none of the project's existing hook URLs equals the desired callback
URL `instance_url ++ "change_hook/gitlab"`; a project with a matching hook sees
no remote write, and re-running the whole provisioning loop after a successful
run performs zero additional webhook-creation requests. -/
theorem create_project_hook_idempotent (webhook_secret instance_url : String)
    (existing : List String) (remote : Nat → List String)
    (repos : List RepoData) :
    ((provision_project webhook_secret instance_url existing).2 = none
        ↔ hook_url instance_url ∈ existing)
      ∧ ((provision_all webhook_secret instance_url
            (provision_all webhook_secret instance_url remote repos).1
            repos).2.all (fun pr => pr.2.isNone) = true) := by
  constructor
  · rw [provision_project_act]
    by_cases h : hook_url instance_url ∈ existing <;> simp [h]
  · rw [List.all_eq_true]
    intro pr hpr
    have hnone := provision_all_no_writes webhook_secret instance_url repos
      (provision_all webhook_secret instance_url remote repos).1
      (fun r hr =>
        provision_all_achieves webhook_secret instance_url repos remote r hr)
      pr hpr
    simp [hnone]

/-- Claim C2 counterexample: with the upstream serving ids 1, 2 carrying paths
`org/b`, `org/a`, the reload stage persists the records in fetch order
`[org/b, org/a]`, which is not sorted by `path_with_namespace` ascending. -/
theorem reload_not_sorted_counterexample :
    (ReloadGitlabProjects_run_deferred exampleConfig exampleNet
        CacheFile.absent).2 = CacheFile.valid [repoOrgB, repoOrgA]
      ∧ sortedByPathB [repoOrgB, repoOrgA] = false := by
  constructor
  · rfl
  · decide

/-- Claim C2 amended: the reload stage persists the fetched-and-filtered
records in fetch order (no re-sort; the API serves them ordered by id), so the
persisted list is the topic-filtered subsequence of the fetch, and two reload
runs seeing the same fetch result produce identical cache contents; sorting by
`path_with_namespace` is applied at load time instead. -/
theorem reload_persists_fetch_order (config : GitlabConfig)
    (net : ApiRequest → List (Except NetworkError (List RepoData)))
    (fetched : List RepoData) (cache cache2 : CacheFile)
    (h : refresh_projects config net = Except.ok fetched) :
    (ReloadGitlabProjects_run_deferred config net cache).2
        = CacheFile.valid
            (filter_repos_by_topic config.topic fetched
              (fun repo => repo.topics))
      ∧ (filter_repos_by_topic config.topic fetched
            (fun repo => repo.topics)).Sublist fetched
      ∧ (ReloadGitlabProjects_run_deferred config net cache).2
          = (ReloadGitlabProjects_run_deferred config net cache2).2 := by
  refine ⟨?_, filter_repos_by_topic_sublist _ _ _, ?_⟩ <;>
    simp [ReloadGitlabProjects_run_deferred, h]

/-- Witness for amended claim C2 at the example network: the cache receives the
records in fetch order, and the run is insensitive to the previous cache. -/
theorem reload_persists_fetch_order_witness :
    (ReloadGitlabProjects_run_deferred exampleConfig exampleNet
        CacheFile.absent).2
        = CacheFile.valid
            (filter_repos_by_topic exampleConfig.topic [repoOrgB, repoOrgA]
              (fun repo => repo.topics))
      ∧ (filter_repos_by_topic exampleConfig.topic [repoOrgB, repoOrgA]
            (fun repo => repo.topics)).Sublist [repoOrgB, repoOrgA]
      ∧ (ReloadGitlabProjects_run_deferred exampleConfig exampleNet
            CacheFile.absent).2
          = (ReloadGitlabProjects_run_deferred exampleConfig exampleNet
              CacheFile.corrupt).2 :=
  reload_persists_fetch_order exampleConfig exampleNet [repoOrgB, repoOrgA]
    CacheFile.absent CacheFile.corrupt rfl

/-- Claim C3: the reload stage either aborts with the fetch error and leaves
the cache exactly as it was, or the fetch completed in full and the cache holds
the complete fetched-and-filtered list — the store is never called with partial
data. -/
theorem reload_all_or_nothing (config : GitlabConfig)
    (net : ApiRequest → List (Except NetworkError (List RepoData)))
    (cache : CacheFile) :
    (∀ e, refresh_projects config net = Except.error e →
        ReloadGitlabProjects_run_deferred config net cache
          = (Except.error e, cache))
      ∧ (∀ fetched, refresh_projects config net = Except.ok fetched →
          ReloadGitlabProjects_run_deferred config net cache
            = (Except.ok (),
                CacheFile.valid
                  (filter_repos_by_topic config.topic fetched
                    (fun repo => repo.topics)))) := by
  constructor
  · intro e he
    simp [ReloadGitlabProjects_run_deferred, he]
  · intro fetched hf
    simp [ReloadGitlabProjects_run_deferred, hf]

/-- Witness for claim C3: a failing fetch leaves the example cache unchanged
and surfaces the error. -/
theorem reload_all_or_nothing_witness :
    ReloadGitlabProjects_run_deferred exampleConfig exampleNetFail
        (CacheFile.valid [repoOrgA])
      = (Except.error { status := 502 }, CacheFile.valid [repoOrgA]) :=
  (reload_all_or_nothing exampleConfig exampleNetFail
      (CacheFile.valid [repoOrgA])).1 { status := 502 } rfl

/-- Claim C4: when the cache file does not exist, `load_projects` returns the
empty list without an error, and `are_projects_cached` returns `false`. -/
theorem load_projects_absent_cache (config : GitlabConfig) :
    GitlabBackend_load_projects config CacheFile.absent = Except.ok []
      ∧ GitlabBackend_are_projects_cached CacheFile.absent = false := by
  constructor
  · rfl
  · rfl

/-- Claim C5: if listing or creating a hook fails for one cached project, the
whole provisioning run aborts with that error: exactly the projects before the
failing one are processed, later ones are not, and the error is not
swallowed. -/
theorem hooks_run_aborts_on_first_failure (webhook_secret instance_url : String)
    (listEnv : Nat → List (Except NetworkError (List String)))
    (postEnv : Nat → Except NetworkError Unit)
    (pre : List RepoData) (bad : RepoData) (rest : List RepoData)
    (e : NetworkError)
    (hpre : ∀ r ∈ pre, ∃ act,
      project_hook_call webhook_secret instance_url listEnv postEnv r
        = Except.ok act)
    (hbad : project_hook_call webhook_secret instance_url listEnv postEnv bad
      = Except.error e) :
    CreateGitlabProjectHooks_run_deferred webhook_secret instance_url listEnv
        postEnv (pre ++ bad :: rest)
      = (pre.map (fun r => r.id), some e) := by
  induction pre with
  | nil =>
      simp [CreateGitlabProjectHooks_run_deferred, hbad]
  | cons r pre ih =>
      obtain ⟨act, hr⟩ := hpre r (List.mem_cons_self r pre)
      have htail : CreateGitlabProjectHooks_run_deferred webhook_secret
          instance_url listEnv postEnv (pre.append (bad :: rest))
          = (pre.map (fun r => r.id), some e) :=
        ih (fun r' hr' => hpre r' (List.mem_cons_of_mem r hr'))
      simp only [List.cons_append, CreateGitlabProjectHooks_run_deferred, hr,
        htail, List.map_cons]

/-- Witness for claim C5: project 1 provisions fine, project 2's hook listing
fails with HTTP 500, so the run stops having processed only project 1. -/
theorem hooks_run_aborts_witness :
    CreateGitlabProjectHooks_run_deferred "hunter2" "https://buildbot.example/"
        exampleListEnv examplePostEnv [repoOrgB, repoOrgA]
      = ([1], some { status := 500 }) :=
  hooks_run_aborts_on_first_failure "hunter2" "https://buildbot.example/"
    exampleListEnv examplePostEnv [repoOrgB] repoOrgA [] { status := 500 }
    (by
      intro r hr
      rw [List.mem_singleton] at hr
      subst hr
      exact ⟨some (gitlab_hook_body "hunter2" "https://buildbot.example/"),
        by decide⟩)
    (by decide)

/-- Claim C6: every webhook the provision stage creates carries the callback
URL, SSL verification on, the configured webhook secret as its token, and all
twelve granular event-notification flags off. -/
theorem created_hook_matches_spec (webhook_secret instance_url : String)
    (hookPages : List (Except NetworkError (List String)))
    (post : HookBody → Except NetworkError Unit) (body : HookBody)
    (h : create_project_hook webhook_secret instance_url hookPages post
      = Except.ok (some body)) :
    body.url = hook_url instance_url
      ∧ body.enable_ssl_verification = true
      ∧ body.token = webhook_secret
      ∧ body.confidential_issues_events = false
      ∧ body.confidential_note_events = false
      ∧ body.deployment_events = false
      ∧ body.feature_flag_events = false
      ∧ body.issues_events = false
      ∧ body.job_events = false
      ∧ body.merge_requests_events = false
      ∧ body.note_events = false
      ∧ body.pipeline_events = false
      ∧ body.releases_events = false
      ∧ body.wiki_page_events = false
      ∧ body.resource_access_token_events = false := by
  have hb : body = gitlab_hook_body webhook_secret instance_url := by
    unfold create_project_hook at h
    cases hp : paginated_github_request hookPages with
    | error e2 =>
        simp only [hp] at h
        exact Except.noConfusion h
    | ok hookUrls =>
        simp only [hp] at h
        by_cases hm : hook_url instance_url ∈ hookUrls
        · rw [if_pos hm] at h
          simp at h
        · rw [if_neg hm] at h
          cases hq : post (gitlab_hook_body webhook_secret instance_url) with
          | error e2 =>
              simp only [hq] at h
              exact Except.noConfusion h
          | ok u =>
              simp only [hq] at h
              exact (Option.some.inj (Except.ok.inj h)).symm
  subst hb
  simp [gitlab_hook_body]

/-- Witness for claim C6: with no existing hooks and a succeeding POST, the
created body satisfies every requirement. -/
theorem created_hook_matches_spec_witness :
    (gitlab_hook_body "hunter2" "https://buildbot.example/").url
        = hook_url "https://buildbot.example/"
      ∧ (gitlab_hook_body "hunter2"
            "https://buildbot.example/").enable_ssl_verification = true
      ∧ (gitlab_hook_body "hunter2" "https://buildbot.example/").token
          = "hunter2"
      ∧ (gitlab_hook_body "hunter2"
            "https://buildbot.example/").confidential_issues_events = false
      ∧ (gitlab_hook_body "hunter2"
            "https://buildbot.example/").confidential_note_events = false
      ∧ (gitlab_hook_body "hunter2"
            "https://buildbot.example/").deployment_events = false
      ∧ (gitlab_hook_body "hunter2"
            "https://buildbot.example/").feature_flag_events = false
      ∧ (gitlab_hook_body "hunter2"
            "https://buildbot.example/").issues_events = false
      ∧ (gitlab_hook_body "hunter2"
            "https://buildbot.example/").job_events = false
      ∧ (gitlab_hook_body "hunter2"
            "https://buildbot.example/").merge_requests_events = false
      ∧ (gitlab_hook_body "hunter2"
            "https://buildbot.example/").note_events = false
      ∧ (gitlab_hook_body "hunter2"
            "https://buildbot.example/").pipeline_events = false
      ∧ (gitlab_hook_body "hunter2"
            "https://buildbot.example/").releases_events = false
      ∧ (gitlab_hook_body "hunter2"
            "https://buildbot.example/").wiki_page_events = false
      ∧ (gitlab_hook_body "hunter2"
            "https://buildbot.example/").resource_access_token_events
          = false :=
  created_hook_matches_spec "hunter2" "https://buildbot.example/"
    [Except.ok []] (fun _ => Except.ok ())
    (gitlab_hook_body "hunter2" "https://buildbot.example/") (by decide)

/-- Claim C7: the reload stage fetches from exactly
`{instance}/api/v4/projects` with query parameters `min_access_level=40`,
`pagination=keyset`, `per_page=100`, `order_by=id`, `sort=asc`; the
maintainer access threshold 40 is baked into the URL, not a per-call
parameter. -/
theorem refresh_projects_endpoint (config : GitlabConfig)
    (net : ApiRequest → List (Except NetworkError (List RepoData))) :
    refresh_projects config net
      = paginated_github_request (net
          { url := config.instance_url ++
              ("/api/v4/projects" ++ "?" ++ String.intercalate "&"
                ["min_access_level=40", "pagination=keyset", "per_page=100",
                  "order_by=id", "sort=asc"]),
            token := config.token }) := by
  have h :
      "/api/v4/projects?min_access_level=40&pagination=keyset&per_page=100&order_by=id&sort=asc"
        = "/api/v4/projects" ++ "?" ++ String.intercalate "&"
            ["min_access_level=40", "pagination=keyset", "per_page=100",
              "order_by=id", "sort=asc"] := by decide
  simp [refresh_projects, refresh_projects_request, projects_api_url, h]

/-- Claim C8: the SIGHUP reconfiguration signal is sent exactly when the
provisioning loop finished with no error — in which case every cached project
was processed — and never when the loop aborted with an error. -/
theorem sighup_only_after_full_success (webhook_secret instance_url : String)
    (listEnv : Nat → List (Except NetworkError (List String)))
    (postEnv : Nat → Except NetworkError Unit) (repos : List RepoData) :
    ((CreateGitlabProjectHooks_step webhook_secret instance_url listEnv postEnv
          repos).2 = true
        ↔ (CreateGitlabProjectHooks_run_deferred webhook_secret instance_url
            listEnv postEnv repos).2 = none)
      ∧ ((CreateGitlabProjectHooks_run_deferred webhook_secret instance_url
            listEnv postEnv repos).2 = none →
          (CreateGitlabProjectHooks_run_deferred webhook_secret instance_url
              listEnv postEnv repos).1 = repos.map (fun r => r.id))
      ∧ (∀ e, (CreateGitlabProjectHooks_run_deferred webhook_secret
            instance_url listEnv postEnv repos).2 = some e →
          (CreateGitlabProjectHooks_step webhook_secret instance_url listEnv
              postEnv repos).2 = false) := by
  refine ⟨?_, hooks_run_processed_of_success _ _ _ _ repos, ?_⟩
  · simp [CreateGitlabProjectHooks_step, Option.isNone_iff_eq_none]
  · intro e he
    simp [CreateGitlabProjectHooks_step, he]

/-- Witness for claim C8: an all-successful run over the two example repos
sends SIGHUP and has processed both projects. -/
theorem sighup_only_after_full_success_witness :
    (CreateGitlabProjectHooks_step "hunter2" "https://buildbot.example/"
        exampleListEnvOk examplePostEnv [repoOrgB, repoOrgA]).2 = true
      ∧ (CreateGitlabProjectHooks_run_deferred "hunter2"
          "https://buildbot.example/" exampleListEnvOk examplePostEnv
          [repoOrgB, repoOrgA]).1 = [1, 2] :=
  ⟨(sighup_only_after_full_success "hunter2" "https://buildbot.example/"
      exampleListEnvOk examplePostEnv [repoOrgB, repoOrgA]).1.mpr (by decide),
    (sighup_only_after_full_success "hunter2" "https://buildbot.example/"
      exampleListEnvOk examplePostEnv [repoOrgB, repoOrgA]).2.1 (by decide)⟩

/-- Claim C9: whatever the cache file holds and in whatever order, a successful
`load_projects` returns projects sorted by `path_with_namespace` ascending,
and, when a topic selector is configured, only projects whose topics contain
the selector: filter and sort are re-applied at load time. -/
theorem load_projects_sorted_and_filtered (config : GitlabConfig)
    (repos : List RepoData) (projects : List GitlabProject)
    (h : GitlabBackend_load_projects config (CacheFile.valid repos)
      = Except.ok projects) :
    List.Pairwise
        (fun p q : GitlabProject =>
          strLe p.data.path_with_namespace q.data.path_with_namespace = true)
        projects
      ∧ ∀ t, config.topic = some t → ∀ p ∈ projects, t ∈ p.data.topics := by
  have hp : projects
      = (filter_repos_by_topic config.topic (sortedByPath repos)
          (fun repo => repo.topics)).map
        (fun repo => { config := config, data := repo }) :=
    (Except.ok.inj h).symm
  subst hp
  constructor
  · rw [List.pairwise_map]
    exact List.Pairwise.sublist
      (filter_repos_by_topic_sublist config.topic (sortedByPath repos)
        (fun repo => repo.topics))
      (sortedByPath_pairwise repos)
  · intro t ht p hpmem
    rcases List.mem_map.mp hpmem with ⟨repo, hrmem, rfl⟩
    rw [ht] at hrmem
    simp only [filter_repos_by_topic, List.mem_filter] at hrmem
    exact of_decide_eq_true hrmem.2

/-- Witness for claim C9: loading the example cache written in the unsorted
order `[org/b, org/a]` yields the projects sorted as `[org/a, org/b]`. -/
theorem load_projects_sorted_witness :
    List.Pairwise
        (fun p q : GitlabProject =>
          strLe p.data.path_with_namespace q.data.path_with_namespace = true)
        [({ config := exampleConfig, data := repoOrgA } : GitlabProject),
          { config := exampleConfig, data := repoOrgB }]
      ∧ ∀ t, exampleConfig.topic = some t →
          ∀ p ∈ [({ config := exampleConfig, data := repoOrgA } :
              GitlabProject),
              { config := exampleConfig, data := repoOrgB }],
            t ∈ p.data.topics :=
  load_projects_sorted_and_filtered exampleConfig [repoOrgB, repoOrgA] _
    (by decide)

/-- Claim C10: `belongs_to_org` is `true` exactly when the record's namespace
kind is the string `"group"`; every other kind value yields `false`. -/
theorem belongs_to_org_iff_group (p : GitlabProject) :
    p.belongs_to_org = true ↔ p.data.«namespace».kind = "group" := by
  simp [GitlabProject.belongs_to_org]
